import Mathlib

/-!
# Verification of the MCP test-case generator core

A shallow embedding, in Lean 4, of the core pipeline of the
`mcp-test-case-generator` server (`src/index.js`): input normalization,
deterministic base-id minting, per-variant test-case synthesis, and structural
output validation.  JavaScript runtime values are modelled by the inductive
type `JsValue`; JavaScript objects are association lists with string keys.
Numeric literals appearing in the pipeline are integers, so JS numbers are
modelled by `Int`; case conversion is modelled for ASCII, which agrees
with the JS behaviour on the inputs at play.
-/

namespace McpTcg

/-- A JavaScript runtime value, as far as the pipeline inspects them:
strings, (integer-valued) numbers, booleans, `null`, plain objects
(association lists, unique keys in real JS) and arrays.  `undefined` is
represented by absence (`Option.none`) at use sites, never as a value
stored in an object. -/
inductive JsValue where
  | vStr (s : String)
  | vNum (n : Int)
  | vBool (b : Bool)
  | vNull
  | vObj (fields : List (String × JsValue))
  | vArr (elems : List JsValue)
deriving Repr

/-- A JavaScript object: an association list of fields. -/
abbrev JsObj := List (String × JsValue)

mutual

/-- Decidable equality on `JsValue` (hand-rolled: the nested lists defeat
the automatic deriving). -/
def decEqVal : (a b : JsValue) → Decidable (a = b)
  | .vStr x, .vStr y =>
    match String.decEq x y with
    | isTrue h => isTrue (h ▸ rfl)
    | isFalse h => isFalse (fun he => h (JsValue.vStr.inj he))
  | .vNum x, .vNum y =>
    match Int.decEq x y with
    | isTrue h => isTrue (h ▸ rfl)
    | isFalse h => isFalse (fun he => h (JsValue.vNum.inj he))
  | .vBool x, .vBool y =>
    match Bool.decEq x y with
    | isTrue h => isTrue (h ▸ rfl)
    | isFalse h => isFalse (fun he => h (JsValue.vBool.inj he))
  | .vNull, .vNull => isTrue rfl
  | .vObj fa, .vObj fb =>
    match decEqFields fa fb with
    | isTrue h => isTrue (h ▸ rfl)
    | isFalse h => isFalse (fun he => h (JsValue.vObj.inj he))
  | .vArr la, .vArr lb =>
    match decEqElems la lb with
    | isTrue h => isTrue (h ▸ rfl)
    | isFalse h => isFalse (fun he => h (JsValue.vArr.inj he))
  | .vStr _, .vNum _ => isFalse (fun h => nomatch h)
  | .vStr _, .vBool _ => isFalse (fun h => nomatch h)
  | .vStr _, .vNull => isFalse (fun h => nomatch h)
  | .vStr _, .vObj _ => isFalse (fun h => nomatch h)
  | .vStr _, .vArr _ => isFalse (fun h => nomatch h)
  | .vNum _, .vStr _ => isFalse (fun h => nomatch h)
  | .vNum _, .vBool _ => isFalse (fun h => nomatch h)
  | .vNum _, .vNull => isFalse (fun h => nomatch h)
  | .vNum _, .vObj _ => isFalse (fun h => nomatch h)
  | .vNum _, .vArr _ => isFalse (fun h => nomatch h)
  | .vBool _, .vStr _ => isFalse (fun h => nomatch h)
  | .vBool _, .vNum _ => isFalse (fun h => nomatch h)
  | .vBool _, .vNull => isFalse (fun h => nomatch h)
  | .vBool _, .vObj _ => isFalse (fun h => nomatch h)
  | .vBool _, .vArr _ => isFalse (fun h => nomatch h)
  | .vNull, .vStr _ => isFalse (fun h => nomatch h)
  | .vNull, .vNum _ => isFalse (fun h => nomatch h)
  | .vNull, .vBool _ => isFalse (fun h => nomatch h)
  | .vNull, .vObj _ => isFalse (fun h => nomatch h)
  | .vNull, .vArr _ => isFalse (fun h => nomatch h)
  | .vObj _, .vStr _ => isFalse (fun h => nomatch h)
  | .vObj _, .vNum _ => isFalse (fun h => nomatch h)
  | .vObj _, .vBool _ => isFalse (fun h => nomatch h)
  | .vObj _, .vNull => isFalse (fun h => nomatch h)
  | .vObj _, .vArr _ => isFalse (fun h => nomatch h)
  | .vArr _, .vStr _ => isFalse (fun h => nomatch h)
  | .vArr _, .vNum _ => isFalse (fun h => nomatch h)
  | .vArr _, .vBool _ => isFalse (fun h => nomatch h)
  | .vArr _, .vNull => isFalse (fun h => nomatch h)
  | .vArr _, .vObj _ => isFalse (fun h => nomatch h)

/-- Decidable equality on object field lists. -/
def decEqFields : (a b : List (String × JsValue)) → Decidable (a = b)
  | [], [] => isTrue rfl
  | [], _ :: _ => isFalse (fun h => nomatch h)
  | _ :: _, [] => isFalse (fun h => nomatch h)
  | (k1, v1) :: r1, (k2, v2) :: r2 =>
    match String.decEq k1 k2 with
    | isFalse h => isFalse (fun he => by
        injection he with h1 _
        exact h (congrArg Prod.fst h1))
    | isTrue hk =>
      match decEqVal v1 v2 with
      | isFalse h => isFalse (fun he => by
          injection he with h1 _
          exact h (congrArg Prod.snd h1))
      | isTrue hv =>
        match decEqFields r1 r2 with
        | isTrue hr => isTrue (by rw [hk, hv, hr])
        | isFalse h => isFalse (fun he => by
            injection he with _ h2
            exact h h2)

/-- Decidable equality on array element lists. -/
def decEqElems : (a b : List JsValue) → Decidable (a = b)
  | [], [] => isTrue rfl
  | [], _ :: _ => isFalse (fun h => nomatch h)
  | _ :: _, [] => isFalse (fun h => nomatch h)
  | v1 :: r1, v2 :: r2 =>
    match decEqVal v1 v2 with
    | isFalse h => isFalse (fun he => by
        injection he with h1 _
        exact h h1)
    | isTrue hv =>
      match decEqElems r1 r2 with
      | isTrue hr => isTrue (by rw [hv, hr])
      | isFalse h => isFalse (fun he => by
          injection he with _ h2
          exact h h2)

end

instance : DecidableEq JsValue := decEqVal

instance {ε α : Type} [DecidableEq ε] [DecidableEq α] : DecidableEq (Except ε α) :=
  fun a b =>
    match a, b with
    | .ok x, .ok y =>
      if h : x = y then isTrue (by rw [h]) else isFalse (fun he => h (Except.ok.inj he))
    | .error x, .error y =>
      if h : x = y then isTrue (by rw [h]) else isFalse (fun he => h (Except.error.inj he))
    | .ok _, .error _ => isFalse (fun h => nomatch h)
    | .error _, .ok _ => isFalse (fun h => nomatch h)

/-- ASCII lower-casing of one character (JS `toLowerCase` restricted to
the ASCII inputs at play; defined structurally so that proofs can
evaluate it). -/
def asciiLowerChar (c : Char) : Char :=
  if 'A' ≤ c && c ≤ 'Z' then Char.ofNat (c.toNat + 32) else c

/-- ASCII upper-casing of one character. -/
def asciiUpperChar (c : Char) : Char :=
  if 'a' ≤ c && c ≤ 'z' then Char.ofNat (c.toNat - 32) else c

/-- ASCII `toLowerCase`. -/
def asciiLower (s : String) : String := String.mk (s.toList.map asciiLowerChar)

/-- ASCII `toUpperCase`. -/
def asciiUpper (s : String) : String := String.mk (s.toList.map asciiUpperChar)

/-- JS `Array.prototype.join(sep)` on strings. -/
def joinWith (sep : String) : List String → String
  | [] => ""
  | [x] => x
  | x :: rest => x ++ sep ++ joinWith sep rest

namespace JsValue

/-- JS truthiness: `""`, `0`, `false`, `null` (and `undefined`, handled at
use sites) are falsy; objects and arrays are always truthy. -/
def truthy : JsValue → Bool
  | vStr s => !(s.isEmpty)
  | vNum n => n != 0
  | vBool b => b
  | vNull => false
  | vObj _ => true
  | vArr _ => true

/-- The test `typeof x === 'object'`: true for objects, arrays and `null`. -/
def isObjLike : JsValue → Bool
  | vObj _ => true
  | vArr _ => true
  | vNull => true
  | _ => false

end JsValue

open JsValue

/-- First-occurrence lookup in an object (JS objects have unique keys, so
this is plain property lookup); `none` models `undefined`. -/
def jsGet (o : JsObj) (k : String) : Option JsValue :=
  (o.find? (fun p => p.1 == k)).map (·.2)

/-- The `in` operator / key-presence test. -/
def hasKey (o : JsObj) (k : String) : Bool :=
  o.any (fun p => p.1 == k)

/-- Property access `x.k` on an arbitrary value: only plain objects carry
the properties the pipeline reads (none of the accessed names is a string
or array built-in); access on `null` throws in JS and is modelled
explicitly at the call sites in `normalizeInput`. -/
def getField : JsValue → String → Option JsValue
  | .vObj fs, k => jsGet fs k
  | _, _ => none

/-- Truthiness of the field `k` of `x` (`undefined`, i.e. a missing field,
is falsy). -/
def truthyField (x : JsValue) (k : String) : Bool :=
  match getField x k with
  | some v => v.truthy
  | none => false

/-- Evaluation of `a || b || ... || dflt`: the first truthy candidate, else the default
(`none` entries are `undefined`, hence falsy). -/
def firstTruthy : List (Option JsValue) → JsValue → JsValue
  | [], dflt => dflt
  | c :: rest, dflt =>
    match c with
    | some v => if v.truthy then v else firstTruthy rest dflt
    | none => firstTruthy rest dflt

/-- Model of `Object.entries`: fields of an object, indexed elements of an array,
indexed characters of a string, `[]` for numbers and booleans (entries of
`null`/`undefined` would throw, but every call site guards with `|| {}`). -/
def jsEntries : JsValue → JsObj
  | .vObj fs => fs
  | .vArr l => l.enum.map (fun p => (toString p.1, p.2))
  | .vStr s => s.toList.enum.map (fun p => (toString p.1, .vStr (String.mk [p.2])))
  | _ => []

/-- The `.length` property where one exists (arrays and strings). -/
def jsLength : JsValue → Option Nat
  | .vArr l => some l.length
  | .vStr s => some s.length
  | _ => none

mutual

/-- JS `String(x)` / template-literal interpolation.  Arrays stringify as
their elements joined by commas with `null` elements becoming empty
strings; plain objects become the literal `[object Object]`. -/
def jsString : JsValue → String
  | .vStr s => s
  | .vNum n => toString n
  | .vBool b => if b then "true" else "false"
  | .vNull => "null"
  | .vObj _ => "[object Object]"
  | .vArr l => jsStringElems l

/-- Comma-joined stringification of array elements (`Array.prototype.join`). -/
def jsStringElems : List JsValue → String
  | [] => ""
  | [v] => if v = .vNull then "" else jsString v
  | v :: rest => (if v = .vNull then "" else jsString v) ++ "," ++ jsStringElems rest

end

/-- Interpolation of a possibly-`undefined` value: `${undefined}` prints
as the word `undefined`. -/
def jsStringU : Option JsValue → String
  | none => "undefined"
  | some v => jsString v

/-- Lower-case hexadecimal digit. -/
def hexDigitChar (n : Nat) : Char :=
  if n < 10 then Char.ofNat (48 + n) else Char.ofNat (87 + n)

/-- JSON escaping of a single character, as `JSON.stringify` performs it. -/
def escapeJsonChar (c : Char) : String :=
  if c = '"' then "\\\""
  else if c = '\\' then "\\\\"
  else if c = '\n' then "\\n"
  else if c = '\r' then "\\r"
  else if c = '\t' then "\\t"
  else if c = Char.ofNat 8 then "\\b"
  else if c = Char.ofNat 12 then "\\f"
  else if c.toNat < 32 then
    "\\u00" ++ String.mk [hexDigitChar (c.toNat / 16), hexDigitChar (c.toNat % 16)]
  else String.mk [c]

/-- A JSON string literal for `s`, double-quoted and escaped. -/
def jsonQuote (s : String) : String :=
  "\"" ++ String.join (s.toList.map escapeJsonChar) ++ "\""

mutual

/-- Model of `JSON.stringify` (no indentation argument, as the pipeline calls it).
Numbers are integer-valued in this model. -/
def jsonStringify : JsValue → String
  | .vStr s => jsonQuote s
  | .vNum n => toString n
  | .vBool b => if b then "true" else "false"
  | .vNull => "null"
  | .vArr l => "[" ++ jsonStringifyElems l ++ "]"
  | .vObj fs => "\x7b" ++ jsonStringifyFields fs ++ "\x7d"

/-- Serialized array elements, comma-separated. -/
def jsonStringifyElems : List JsValue → String
  | [] => ""
  | [v] => jsonStringify v
  | v :: rest => jsonStringify v ++ "," ++ jsonStringifyElems rest

/-- Serialized object members, comma-separated. -/
def jsonStringifyFields : List (String × JsValue) → String
  | [] => ""
  | [kv] => jsonQuote kv.1 ++ ":" ++ jsonStringify kv.2
  | kv :: rest => jsonQuote kv.1 ++ ":" ++ jsonStringify kv.2 ++ "," ++ jsonStringifyFields rest

end

/-- Skip JSON whitespace. -/
def skipWs : List Char → List Char
  | c :: cs => if c = ' ' || c = '\t' || c = '\n' || c = '\r' then skipWs cs else c :: cs
  | [] => []

/-- ASCII decimal digit test. -/
def isDigitChar (c : Char) : Bool := '0' ≤ c && c ≤ '9'

/-- Longest digit run at the front of the input. -/
def takeDigits : List Char → (List Char × List Char)
  | [] => ([], [])
  | c :: cs =>
    if isDigitChar c then
      let p := takeDigits cs
      (c :: p.1, p.2)
    else ([], c :: cs)

/-- Numeric value of a digit run. -/
def digitsToNat (ds : List Char) : Nat :=
  ds.foldl (fun acc c => acc * 10 + (c.toNat - 48)) 0

/-- Parse a JSON number.  JSON forbids leading zeros; numbers with a
fraction or exponent are real-valued in JS and lie outside this
integer-valued model, so they are treated as parse failures. -/
def parseNumber (cs : List Char) : Option (JsValue × List Char) :=
  let p : Bool × List Char :=
    match cs with
    | '-' :: rest => (true, rest)
    | _ => (false, cs)
  match takeDigits p.2 with
  | ([], _) => none
  | (ds, rest) =>
    if ds.length > 1 && ds.head? = some '0' then none
    else
      match rest with
      | '.' :: _ => none
      | 'e' :: _ => none
      | 'E' :: _ => none
      | _ => some (.vNum (if p.1 then -(digitsToNat ds : Int) else (digitsToNat ds : Int)), rest)

/-- Hex digit value. -/
def hexVal (c : Char) : Option Nat :=
  if '0' ≤ c && c ≤ '9' then some (c.toNat - 48)
  else if 'a' ≤ c && c ≤ 'f' then some (c.toNat - 87)
  else if 'A' ≤ c && c ≤ 'F' then some (c.toNat - 55)
  else none

/-- Parse the body of a JSON string literal (the opening quote already
consumed), returning its characters and the input after the closing
quote.  Lone surrogate escapes are outside the model. -/
def parseStringBody : List Char → Option (List Char × List Char)
  | [] => none
  | '"' :: rest => some ([], rest)
  | '\\' :: e :: rest =>
    match e with
    | '"' => (parseStringBody rest).map (fun p => ('"' :: p.1, p.2))
    | '\\' => (parseStringBody rest).map (fun p => ('\\' :: p.1, p.2))
    | '/' => (parseStringBody rest).map (fun p => ('/' :: p.1, p.2))
    | 'n' => (parseStringBody rest).map (fun p => ('\n' :: p.1, p.2))
    | 't' => (parseStringBody rest).map (fun p => ('\t' :: p.1, p.2))
    | 'r' => (parseStringBody rest).map (fun p => ('\r' :: p.1, p.2))
    | 'b' => (parseStringBody rest).map (fun p => (Char.ofNat 8 :: p.1, p.2))
    | 'f' => (parseStringBody rest).map (fun p => (Char.ofNat 12 :: p.1, p.2))
    | 'u' =>
      match rest with
      | h1 :: h2 :: h3 :: h4 :: rest2 =>
        match hexVal h1, hexVal h2, hexVal h3, hexVal h4 with
        | some a, some b, some c, some d =>
          (parseStringBody rest2).map
            (fun p => (Char.ofNat (4096 * a + 256 * b + 16 * c + d) :: p.1, p.2))
        | _, _, _, _ => none
      | _ => none
    | _ => none
  | c :: rest =>
    if c.toNat < 32 then none
    else (parseStringBody rest).map (fun p => (c :: p.1, p.2))

/-- JS property assignment `o[k] = v`: overwrite in place if the key
exists, else append (JSON.parse keeps the last duplicate key this way). -/
def objInsert (o : JsObj) (k : String) (v : JsValue) : JsObj :=
  if hasKey o k then o.map (fun p => if p.1 = k then (k, v) else p)
  else o ++ [(k, v)]

mutual

/-- Recursive-descent JSON value parser with explicit fuel (the fuel
strictly decreases on every nested call; `jsonParse` supplies enough for
any input of the given length). -/
def parseVal : Nat → List Char → Option (JsValue × List Char)
  | 0, _ => none
  | fuel + 1, cs =>
    match skipWs cs with
    | '\x7b' :: rest =>
      match skipWs rest with
      | '\x7d' :: rest2 => some (.vObj [], rest2)
      | cs1 => (parseMembers fuel cs1 []).map (fun p => (.vObj p.1, p.2))
    | '[' :: rest =>
      match skipWs rest with
      | ']' :: rest2 => some (.vArr [], rest2)
      | cs1 => (parseElems fuel cs1 []).map (fun p => (.vArr p.1, p.2))
    | '"' :: rest => (parseStringBody rest).map (fun p => (.vStr (String.mk p.1), p.2))
    | 't' :: 'r' :: 'u' :: 'e' :: rest => some (.vBool true, rest)
    | 'f' :: 'a' :: 'l' :: 's' :: 'e' :: rest => some (.vBool false, rest)
    | 'n' :: 'u' :: 'l' :: 'l' :: rest => some (.vNull, rest)
    | cs1 => parseNumber cs1

/-- Parse the members of a JSON object (after `{`, first key pending). -/
def parseMembers : Nat → List Char → JsObj → Option (JsObj × List Char)
  | 0, _, _ => none
  | fuel + 1, cs, acc =>
    match skipWs cs with
    | '"' :: rest =>
      match parseStringBody rest with
      | none => none
      | some (kcs, rest2) =>
        match skipWs rest2 with
        | ':' :: rest3 =>
          match parseVal fuel rest3 with
          | none => none
          | some (v, rest4) =>
            match skipWs rest4 with
            | ',' :: rest5 => parseMembers fuel rest5 (objInsert acc (String.mk kcs) v)
            | '\x7d' :: rest5 => some (objInsert acc (String.mk kcs) v, rest5)
            | _ => none
        | _ => none
    | _ => none

/-- Parse the elements of a JSON array (after `[`, first element pending). -/
def parseElems : Nat → List Char → List JsValue → Option (List JsValue × List Char)
  | 0, _, _ => none
  | fuel + 1, cs, acc =>
    match parseVal fuel cs with
    | none => none
    | some (v, rest) =>
      match skipWs rest with
      | ',' :: rest2 => parseElems fuel rest2 (acc ++ [v])
      | ']' :: rest2 => some (acc ++ [v], rest2)
      | _ => none

end

/-- Model of `JSON.parse`: parse a complete JSON document; trailing non-whitespace
is an error.  Two fuel units per character always suffice. -/
def jsonParse (s : String) : Option JsValue :=
  match parseVal (2 * s.length + 8) s.toList with
  | some (v, rest) => if (skipWs rest).isEmpty then some v else none
  | none => none

/-! ## QA assumptions table (`QA_ASSUMPTIONS` in `src/index.js`) -/

/-- Default validity bounds for string-typed data. -/
structure StringAssumptions where
  maxLength : Nat
  minLength : Nat
  invalidFormats : List String
deriving Repr, DecidableEq

/-- Default validity bounds for number-typed data. -/
structure NumberAssumptions where
  min : Int
  max : Int
  invalid : List Int
deriving Repr, DecidableEq

/-- Default validity data for email fields; the format regex of the source
is carried as its literal pattern text (it is never consulted by the
core pipeline). -/
structure EmailAssumptions where
  validFormatPattern : String
  invalidFormats : List String
deriving Repr, DecidableEq

/-- Default validity data for password fields (unused by the core
pipeline). -/
structure PasswordAssumptions where
  minLength : Nat
  requirements : List String
deriving Repr, DecidableEq

/-- The static, read-only QA assumptions table. -/
structure QaAssumptionsTable where
  string : StringAssumptions
  number : NumberAssumptions
  email : EmailAssumptions
  password : PasswordAssumptions
deriving Repr, DecidableEq

/-- The table `QA_ASSUMPTIONS` from `src/index.js`. -/
def QA_ASSUMPTIONS : QaAssumptionsTable where
  string :=
    { maxLength := 255
      minLength := 1
      invalidFormats := ["<script>", "SELECT * FROM", "javascript:", "data:"] }
  number :=
    { min := 0
      max := 999999
      invalid := [-1, 999999999] }
  email :=
    { validFormatPattern := "^[^\\s@]+@[^\\s@]+\\.[^\\s@]+$"
      invalidFormats := ["invalid", "test@", "@domain.com", "test.domain.com"] }
  password :=
    { minLength := 8
      requirements := ["uppercase", "lowercase", "number", "special"] }

/-! ## Input normalization (`normalizeInput`) -/

/-- The object `\x7b type: 'raw_text', content \x7d`. -/
def rawTextObj (content : JsValue) : JsValue :=
  .vObj [("type", .vStr "raw_text"), ("content", content)]

/-- Classification of the parsed value (`normalizeInput`, detection part):
`api` when both `endpoint` and `method` are truthy; else `user_story`
when any of `user`/`story`/`as`/`iWant`/`soThat` is truthy; else
`raw_text`.  Field defaults follow the `||` chains of the source; the
`typeof parsed === 'string'` arms are kept even where a string can never
carry the guarding fields. -/
def classifyParsed (parsed : JsValue) : JsValue :=
  if truthyField parsed "endpoint" && truthyField parsed "method" then
    .vObj [("type", .vStr "api"),
           ("endpoint", (getField parsed "endpoint").getD .vNull),
           ("method", (getField parsed "method").getD .vNull),
           ("request", firstTruthy [getField parsed "request", getField parsed "parameters"] (.vObj [])),
           ("response", firstTruthy [getField parsed "response"] (.vObj []))]
  else if truthyField parsed "user" || truthyField parsed "story" || truthyField parsed "as"
         || truthyField parsed "iWant" || truthyField parsed "soThat" then
    .vObj [("type", .vStr "user_story"),
           ("content",
             match parsed with
             | .vStr s => .vStr s
             | _ => firstTruthy
                      [getField parsed "userStory", getField parsed "story", getField parsed "content"]
                      (.vStr (jsonStringify parsed)))]
  else
    rawTextObj
      (match parsed with
       | .vStr s => .vStr s
       | _ => .vStr (jsonStringify parsed))

/-- Pass-through test of `normalizeInput`:
`typeof input === 'object' && input.type` for a non-`null` input (on
`null` itself, the `.type` access throws instead). -/
def passThru (input : JsValue) : Bool :=
  input.isObjLike && truthyField input "type"

/-- Classification step of `normalizeInput` applied to the parsed value:
accessing `parsed.endpoint` on a `null` parsed value throws, landing in
the `catch`, which returns a `raw_text` record over `String(input)`. -/
def normalizeParsed (input parsed : JsValue) : JsValue :=
  match parsed with
  | .vNull => rawTextObj (.vStr (jsString input))
  | p => classifyParsed p

/-- Model of `normalizeInput`: pass objects with a truthy `type` field
through unchanged; parse strings as JSON (wrapping parse failures as
`\x7b raw: input \x7d`); then classify.  The two property accesses that throw
on `null` (`input.type` when the input is `null`, `parsed.endpoint` when
the parsed value is `null`) land in the `catch`, which returns a
`raw_text` record over `String(input)`. -/
def normalizeInput (input : JsValue) : JsValue :=
  match input with
  | .vNull => rawTextObj (.vStr (jsString .vNull))
  | _ =>
    if passThru input then input
    else
      normalizeParsed input
        (match input with
         | .vStr s => (jsonParse s).getD (.vObj [("raw", .vStr s)])
         | _ => input)

/-! ## Identifier minting (`generateBaseId`) -/

/-- A `\w` character of a JS (non-unicode) regex: ASCII letters, digits,
underscore. -/
def isWordChar (c : Char) : Bool :=
  ('a' ≤ c && c ≤ 'z') || ('A' ≤ c && c ≤ 'Z') || ('0' ≤ c && c ≤ '9') || c = '_'

/-- Split into maximal runs of `\w` characters (accumulator holds the
current run, reversed). -/
def wordRuns : List Char → List Char → List (List Char)
  | [], acc => if acc.isEmpty then [] else [acc.reverse]
  | c :: cs, acc =>
    if isWordChar c then wordRuns cs (c :: acc)
    else if acc.isEmpty then wordRuns cs []
    else acc.reverse :: wordRuns cs []

/-- Model of `content.match(/\b\w\x7b3,\x7d\b/g)`: with ASCII `\w`, this regex matches
exactly the maximal word-character runs of length at least 3 (a match can
only start and end at a run boundary, and the greedy quantifier takes a
whole run). -/
def wordTokens (s : String) : List String :=
  ((wordRuns s.toList []).filter (fun r => 3 ≤ r.length)).map String.mk

/-- Model of `endpoint.replace(/[^a-zA-Z0-9]/g, '_').toUpperCase()`. -/
def sanitizeEndpoint (e : String) : String :=
  asciiUpper (String.mk (e.toList.map (fun c =>
    if ('a' ≤ c && c ≤ 'z') || ('A' ≤ c && c ≤ 'Z') || ('0' ≤ c && c ≤ '9') then c else '_')))

/-- The text path of `generateBaseId`: first 3 word tokens, uppercased and
joined by `_` after the prefix `TC_`.  The `|| 'TC_GENERIC'` fallback of
the source is the emptiness check kept here: it is dead code, because the
template literal always begins with the non-empty prefix `TC_`. -/
def textBaseId (content : String) : String :=
  let words := wordTokens content
  let keyWords := (words.take 3).map asciiUpper
  let tid := "TC_" ++ joinWith "_" keyWords
  if tid = "" then "TC_GENERIC" else tid

/-- Errors the pipeline can raise: `TypeError`s from calling a method of
a value that lacks it, and the defensive unsupported-input-type error of
`generateTestCases`. -/
inductive JsErr where
  | typeError (msg : String)
  | unsupportedInputType (msg : String)
deriving Repr, DecidableEq

/-- Model of `generateBaseId`: for inputs whose `type` field is exactly the string
`api`, sanitize the `endpoint` (a `TypeError` if `endpoint` is not a
string, since only strings have `.replace`); otherwise tokenize
`input.content || ''` (a `TypeError` if that value is truthy but not a
string, since only strings have `.match`). -/
def generateBaseId (input : JsValue) : Except JsErr String :=
  if getField input "type" = some (.vStr "api") then
    match getField input "endpoint" with
    | some (.vStr e) => .ok ("TC_" ++ sanitizeEndpoint e)
    | _ => .error (.typeError "input.endpoint.replace is not a function")
  else
    match
      (match getField input "content" with
       | some v => if v.truthy then v else .vStr ""
       | none => .vStr "") with
    | .vStr s => .ok (textBaseId s)
    | _ => .error (.typeError "content.match is not a function")

/-! ## Keyword extraction -/

/-- The action keyword list of `extractMainAction`, in priority order. -/
def actionWords : List String :=
  ["login", "register", "create", "update", "delete", "submit", "save", "search", "view", "access"]

/-- The feature keyword list of `extractMainFeature`, in priority order. -/
def featureWords : List String :=
  ["authentication", "authorization", "validation", "processing", "display", "storage", "communication"]

/-- List-of-characters prefix test. -/
def isPrefixList : List Char → List Char → Bool
  | [], _ => true
  | _ :: _, [] => false
  | p :: ps, c :: cs => p = c && isPrefixList ps cs

/-- Substring occurrence test on character lists. -/
def containsSub (pat : List Char) : List Char → Bool
  | [] => pat.isEmpty
  | c :: cs => isPrefixList pat (c :: cs) || containsSub pat cs

/-- JS `haystack.includes(needle)`. -/
def strIncludes (haystack needle : String) : Bool :=
  containsSub needle.toList haystack.toList

/-- Model of `extractMainAction`: first action keyword occurring in the lower-cased
content, defaulting to `perform action`. -/
def extractMainAction (content : String) : String :=
  ((actionWords.find? (fun w => strIncludes (asciiLower content) w)).getD "perform action")

/-- Model of `extractMainFeature`: first feature keyword occurring in the
lower-cased content, defaulting to `feature`. -/
def extractMainFeature (content : String) : String :=
  ((featureWords.find? (fun w => strIncludes (asciiLower content) w)).getD "feature")

/-! ## Derived test data (`getInvalidTestData`, `getBoundaryTestData`,
`getEdgeTestData`) -/

/-- The string `'a'.repeat n`. -/
def repeatChar (c : Char) (n : Nat) : String := String.mk (List.replicate n c)

/-- Model of `getInvalidTestData`: type inversion per field.  String fields become
the number `123`, number fields the string `not_a_number`, boolean fields
the string `not_a_boolean`; fields of any other type are not assigned
into the fresh result object at all. -/
def getInvalidTestData (request : JsValue) : JsObj :=
  (jsEntries request).filterMap fun kv =>
    match kv.2 with
    | .vStr _ => some (kv.1, .vNum 123)
    | .vNum _ => some (kv.1, .vStr "not_a_number")
    | .vBool _ => some (kv.1, .vStr "not_a_boolean")
    | _ => none

/-- Model of `getBoundaryTestData`: string fields become 255 `a`s (`max`) or a
single `a` (`min`); number fields the table's `max`/`min` bound; other
fields are not assigned into the fresh result object. -/
def getBoundaryTestData (request : JsValue) (ty : String) : JsObj :=
  (jsEntries request).filterMap fun kv =>
    match kv.2 with
    | .vStr _ =>
      some (kv.1, .vStr (if ty = "max" then repeatChar 'a' QA_ASSUMPTIONS.string.maxLength else "a"))
    | .vNum _ =>
      some (kv.1, .vNum (if ty = "max" then QA_ASSUMPTIONS.number.max else QA_ASSUMPTIONS.number.min))
    | _ => none

/-- The fixed special-character payload of `getEdgeTestData`. -/
def specialPayload : String := "!@#$%^&*()_+-=[]\x7b\x7d|;:,.<>?"

/-- Model of `getEdgeTestData`: every field becomes `null` in the `null` flavour;
in the `special` flavour string fields become the special payload and
other fields keep their value. -/
def getEdgeTestData (request : JsValue) (ty : String) : JsObj :=
  (jsEntries request).filterMap fun kv =>
    if ty = "null" then some (kv.1, .vNull)
    else if ty = "special" then
      some (kv.1, match kv.2 with | .vStr _ => .vStr specialPayload | v => v)
    else none

/-! ## Case synthesis -/

/-- The four sections of generated test cases, in the fixed insertion
order of the source object literal. -/
structure TestCaseSet where
  positive : List JsObj
  negative : List JsObj
  boundary : List JsObj
  edge : List JsObj
deriving Repr, DecidableEq

/-- Cases generated by `generateApiTestCases`.  The endpoint and method
are the raw field values of the normalized record (possibly `undefined`
on a passed-through object) and are interpolated into the template
strings; `request` is the already-defaulted `apiInput.request || ...`
value. -/
def generateApiCases (endpointV methodV : Option JsValue) (requestV : JsValue)
    (baseId : String) : TestCaseSet :=
  let e := jsStringU endpointV
  let m := jsStringU methodV
  { positive :=
      [[("id", .vStr (baseId ++ "_POS_001")),
        ("title", .vStr (m ++ " " ++ e ++ " with valid request")),
        ("type", .vStr "positive"),
        ("precondition", .vStr ("API endpoint " ++ e ++ " is available and accessible")),
        ("steps", .vArr
          [.vStr ("Prepare valid request data for " ++ e),
           .vStr ("Send " ++ m ++ " request to " ++ e),
           .vStr "Verify response status is 200",
           .vStr "Verify response structure matches expected format"]),
        ("expected_result", .vStr "API returns 200 status with valid response data"),
        ("test_data", requestV),
        ("priority", .vStr "High")]]
    negative :=
      [[("id", .vStr (baseId ++ "_NEG_001")),
        ("title", .vStr (m ++ " " ++ e ++ " with missing required fields")),
        ("type", .vStr "negative"),
        ("precondition", .vStr ("API endpoint " ++ e ++ " is available")),
        ("steps", .vArr
          [.vStr ("Send " ++ m ++ " request to " ++ e ++ " without required fields"),
           .vStr "Verify response status is 400",
           .vStr "Verify error message indicates missing required fields"]),
        ("expected_result", .vStr "API returns 400 status with validation error"),
        ("test_data", .vObj []),
        ("priority", .vStr "High")],
       [("id", .vStr (baseId ++ "_NEG_002")),
        ("title", .vStr (m ++ " " ++ e ++ " with invalid data format")),
        ("type", .vStr "negative"),
        ("precondition", .vStr ("API endpoint " ++ e ++ " is available")),
        ("steps", .vArr
          [.vStr ("Send " ++ m ++ " request to " ++ e ++ " with invalid data types"),
           .vStr "Verify response status is 400",
           .vStr "Verify error message indicates invalid format"]),
        ("expected_result", .vStr "API returns 400 status with format validation error"),
        ("test_data", .vObj (getInvalidTestData requestV)),
        ("priority", .vStr "Medium")]]
    boundary :=
      [[("id", .vStr (baseId ++ "_BND_001")),
        ("title", .vStr (m ++ " " ++ e ++ " with maximum length values")),
        ("type", .vStr "boundary"),
        ("precondition", .vStr ("API endpoint " ++ e ++ " is available")),
        ("steps", .vArr
          [.vStr ("Send " ++ m ++ " request to " ++ e ++ " with max length string values"),
           .vStr "Verify response status is 200",
           .vStr "Verify data is processed correctly"]),
        ("expected_result", .vStr "API processes max length values successfully"),
        ("test_data", .vObj (getBoundaryTestData requestV "max")),
        ("priority", .vStr "Medium")],
       [("id", .vStr (baseId ++ "_BND_002")),
        ("title", .vStr (m ++ " " ++ e ++ " with minimum length values")),
        ("type", .vStr "boundary"),
        ("precondition", .vStr ("API endpoint " ++ e ++ " is available")),
        ("steps", .vArr
          [.vStr ("Send " ++ m ++ " request to " ++ e ++ " with min length values"),
           .vStr "Verify response status is 200",
           .vStr "Verify data is processed correctly"]),
        ("expected_result", .vStr "API processes min length values successfully"),
        ("test_data", .vObj (getBoundaryTestData requestV "min")),
        ("priority", .vStr "Medium")]]
    edge :=
      [[("id", .vStr (baseId ++ "_EDGE_001")),
        ("title", .vStr (m ++ " " ++ e ++ " with null values")),
        ("type", .vStr "edge"),
        ("precondition", .vStr ("API endpoint " ++ e ++ " is available")),
        ("steps", .vArr
          [.vStr ("Send " ++ m ++ " request to " ++ e ++ " with null values for optional fields"),
           .vStr "Verify response status is 200",
           .vStr "Verify null values are handled appropriately"]),
        ("expected_result", .vStr "API handles null values without errors"),
        ("test_data", .vObj (getEdgeTestData requestV "null")),
        ("priority", .vStr "Low")],
       [("id", .vStr (baseId ++ "_EDGE_002")),
        ("title", .vStr (m ++ " " ++ e ++ " with special characters")),
        ("type", .vStr "edge"),
        ("precondition", .vStr ("API endpoint " ++ e ++ " is available")),
        ("steps", .vArr
          [.vStr ("Send " ++ m ++ " request to " ++ e ++ " with special characters"),
           .vStr "Verify response status is 200",
           .vStr "Verify special characters are processed correctly"]),
        ("expected_result", .vStr "API handles special characters appropriately"),
        ("test_data", .vObj (getEdgeTestData requestV "special")),
        ("priority", .vStr "Low")]] }

/-- Cases generated by `generateUserStoryTestCases` for a string-valued
content (the only case in which the source reaches the end of the
function: a non-string content makes `extractMainAction` throw). -/
def generateUserStoryCases (content baseId : String) : TestCaseSet :=
  let mainAction := extractMainAction content
  { positive :=
      [[("id", .vStr (baseId ++ "_POS_001")),
        ("title", .vStr ("Happy path - " ++ mainAction)),
        ("type", .vStr "positive"),
        ("precondition", .vStr "User has valid credentials and necessary permissions"),
        ("steps", .vArr
          [.vStr "Navigate to the relevant page",
           .vStr ("Perform " ++ mainAction ++ " with valid data"),
           .vStr "Verify the action completes successfully",
           .vStr "Verify expected outcome is achieved"]),
        ("expected_result", .vStr ("User can " ++ mainAction ++ " and see expected result")),
        ("test_data", .vObj [("scenario", .vStr "happy_path")]),
        ("priority", .vStr "High")]]
    negative :=
      [[("id", .vStr (baseId ++ "_NEG_001")),
        ("title", .vStr ("Invalid input - " ++ mainAction)),
        ("type", .vStr "negative"),
        ("precondition", .vStr "User is on the relevant page"),
        ("steps", .vArr
          [.vStr "Enter invalid or missing required information",
           .vStr "Attempt to complete the action",
           .vStr "Verify validation error messages appear",
           .vStr "Verify action cannot be completed"]),
        ("expected_result",
          .vStr "System displays appropriate error messages and prevents invalid action"),
        ("test_data", .vObj [("scenario", .vStr "invalid_input")]),
        ("priority", .vStr "High")]]
    boundary :=
      [[("id", .vStr (baseId ++ "_BND_001")),
        ("title", .vStr ("Maximum limits - " ++ mainAction)),
        ("type", .vStr "boundary"),
        ("precondition", .vStr "User is on the relevant page"),
        ("steps", .vArr
          [.vStr "Enter data at maximum allowed limits",
           .vStr "Attempt to complete the action",
           .vStr "Verify system handles maximum limits correctly",
           .vStr "Verify action completes or shows appropriate limit message"]),
        ("expected_result", .vStr "System handles maximum boundary values appropriately"),
        ("test_data", .vObj [("scenario", .vStr "max_limits")]),
        ("priority", .vStr "Medium")]]
    edge :=
      [[("id", .vStr (baseId ++ "_EDGE_001")),
        ("title", .vStr ("Concurrent access - " ++ mainAction)),
        ("type", .vStr "edge"),
        ("precondition", .vStr "Multiple users have access to the system"),
        ("steps", .vArr
          [.vStr "Multiple users attempt the same action simultaneously",
           .vStr "Verify system handles concurrent requests",
           .vStr "Verify data integrity is maintained",
           .vStr "Verify all users receive appropriate responses"]),
        ("expected_result", .vStr "System maintains data integrity under concurrent access"),
        ("test_data", .vObj [("scenario", .vStr "concurrent_access")]),
        ("priority", .vStr "Low")]] }

/-- Cases generated by `generateRawTextTestCases` for a string-valued
content. -/
def generateRawTextCases (content baseId : String) : TestCaseSet :=
  let mainFeature := extractMainFeature content
  { positive :=
      [[("id", .vStr (baseId ++ "_POS_001")),
        ("title", .vStr ("Basic functionality - " ++ mainFeature)),
        ("type", .vStr "positive"),
        ("precondition", .vStr "System is available and user has necessary access"),
        ("steps", .vArr
          [.vStr "Access the feature/function",
           .vStr "Perform basic operation with valid inputs",
           .vStr "Verify the operation completes successfully",
           .vStr "Verify expected output is displayed"]),
        ("expected_result", .vStr "Feature works correctly with valid inputs"),
        ("test_data", .vObj [("scenario", .vStr "basic_functionality")]),
        ("priority", .vStr "High")]]
    negative :=
      [[("id", .vStr (baseId ++ "_NEG_001")),
        ("title", .vStr ("Error handling - " ++ mainFeature)),
        ("type", .vStr "negative"),
        ("precondition", .vStr "User is accessing the feature"),
        ("steps", .vArr
          [.vStr "Provide invalid or missing inputs",
           .vStr "Attempt to execute the operation",
           .vStr "Verify appropriate error messages are shown",
           .vStr "Verify system remains stable"]),
        ("expected_result", .vStr "System handles errors gracefully with clear error messages"),
        ("test_data", .vObj [("scenario", .vStr "error_handling")]),
        ("priority", .vStr "High")]]
    boundary :=
      [[("id", .vStr (baseId ++ "_BND_001")),
        ("title", .vStr ("Limit testing - " ++ mainFeature)),
        ("type", .vStr "boundary"),
        ("precondition", .vStr "User is accessing the feature"),
        ("steps", .vArr
          [.vStr "Test with minimum allowed values",
           .vStr "Test with maximum allowed values",
           .vStr "Verify system behavior at boundaries",
           .vStr "Verify no crashes or unexpected behavior"]),
        ("expected_result", .vStr "System behaves correctly at boundary values"),
        ("test_data", .vObj [("scenario", .vStr "boundary_testing")]),
        ("priority", .vStr "Medium")]]
    edge :=
      [[("id", .vStr (baseId ++ "_EDGE_001")),
        ("title", .vStr ("Stress testing - " ++ mainFeature)),
        ("type", .vStr "edge"),
        ("precondition", .vStr "System is under normal load"),
        ("steps", .vArr
          [.vStr "Execute multiple operations rapidly",
           .vStr "Verify system response time",
           .vStr "Verify system stability under load",
           .vStr "Verify data integrity is maintained"]),
        ("expected_result", .vStr "System maintains performance and stability under stress"),
        ("test_data", .vObj [("scenario", .vStr "stress_testing")]),
        ("priority", .vStr "Low")]] }

/-- Dispatcher `generateTestCases`: mint the base id (which may throw),
switch on the exact string in the `type` field, fall through to the
defensive unsupported-input-type error otherwise.  Narrative generators
require a string content — a truthy non-string already failed while
minting the id, and a falsy or missing non-string makes
`extractMainAction`/`extractMainFeature` throw a `TypeError`. -/
def generateTestCases (n : JsValue) : Except JsErr TestCaseSet :=
  match generateBaseId n with
  | .error e => .error e
  | .ok baseId =>
  match getField n "type" with
  | some (.vStr "api") =>
    .ok (generateApiCases (getField n "endpoint") (getField n "method")
      (firstTruthy [getField n "request"] (.vObj [])) baseId)
  | some (.vStr "user_story") =>
    match getField n "content" with
    | some (.vStr c) => .ok (generateUserStoryCases c baseId)
    | _ => .error (.typeError "content.toLowerCase is not a function")
  | some (.vStr "raw_text") =>
    match getField n "content" with
    | some (.vStr c) => .ok (generateRawTextCases c baseId)
    | _ => .error (.typeError "content.toLowerCase is not a function")
  | t => .error (.unsupportedInputType ("Unsupported input type: " ++ jsStringU t))

/-! ## Output validation (`validateOutput`) -/

/-- The result record of `validateOutput`. -/
structure ValidationResult where
  isValid : Bool
  errors : List String
deriving Repr, DecidableEq

/-- The four required section names, in source order. -/
def requiredSections : List String := ["positive", "negative", "boundary", "edge"]

/-- The eight required fields of a test case, in source order. -/
def requiredFields : List String :=
  ["id", "title", "type", "precondition", "steps", "expected_result", "test_data", "priority"]

/-- The entries of a `TestCaseSet` object, in insertion order — used both
by the first validator loop (over `requiredSections`, which coincide) and
by the second (`Object.entries`). -/
def sectionsOf (tc : TestCaseSet) : List (String × List JsObj) :=
  [("positive", tc.positive), ("negative", tc.negative), ("boundary", tc.boundary), ("edge", tc.edge)]

/-- First validator loop: each section of a `TestCaseSet` exists and is
an array by construction (the missing-section branch of the source is
unreachable on this type), so only the three-case floor can fail. -/
def sectionCountErrors (tc : TestCaseSet) : List String :=
  (sectionsOf tc).filterMap fun sec =>
    if sec.2.length < 3 then some ("Section " ++ sec.1 ++ " has less than 3 test cases")
    else none

/-- The steps check `!testCase.steps || testCase.steps.length === 0`
(strict equality: `.length` of a non-array non-string value is
`undefined`, which is not `0`). -/
def stepsBad (c : JsObj) : Bool :=
  match jsGet c "steps" with
  | none => true
  | some v => !v.truthy || jsLength v == some 0

/-- Errors contributed by one test case at (0-based) index `idx` of
section `secName`: one per missing required field, in field order, then
the empty-steps error. -/
def caseErrors (secName : String) (idx : Nat) (c : JsObj) : List String :=
  (requiredFields.filterMap fun f =>
    if hasKey c f then none
    else some ("Section " ++ secName ++ ", case " ++ toString (idx + 1) ++ ": Missing field " ++ f))
  ++ (if stepsBad c then
        ["Section " ++ secName ++ ", case " ++ toString (idx + 1) ++ ": Steps array is empty"]
      else [])

/-- Second validator loop, over all sections and their cases. -/
def fieldErrors (tc : TestCaseSet) : List String :=
  (sectionsOf tc).flatMap fun sec => sec.2.enum.flatMap fun ic => caseErrors sec.1 ic.1 ic.2

/-- Validator `validateOutput`: accumulate all violations; valid iff none. -/
def validateOutput (tc : TestCaseSet) : ValidationResult :=
  let errors := sectionCountErrors tc ++ fieldErrors tc
  { isValid := errors.isEmpty, errors := errors }

/-! ## Pipeline summary -/

/-- Flattened case count (`summary.total_cases`). -/
def totalCases (tc : TestCaseSet) : Nat :=
  tc.positive.length + tc.negative.length + tc.boundary.length + tc.edge.length

/-- The generated cases of the full normalize-then-generate pipeline,
`none` when generation throws. -/
def pipelineCases (input : JsValue) : Option TestCaseSet :=
  (generateTestCases (normalizeInput input)).toOption

/-! ## Concrete scenario inputs and claim-level helper predicates -/

/-- Whether a pipeline result is the defensive unsupported-input-type
error. -/
def isUnsupportedErr {α : Type} : Except JsErr α → Bool
  | .error (.unsupportedInputType _) => true
  | _ => false

/-- The user-story scenario input of the spec: a plain English sentence. -/
def storyInputC1 : JsValue :=
  .vStr "As a user I want to login so that I can access dashboard"

/-- A structured object carrying an unrecognized truthy `type` tag. -/
def bananaInput : JsValue := .vObj [("type", .vStr "banana")]

/-- A structured input with `endpoint` and `method` fields and a truthy
non-`api` `type` tag (taken verbatim through the pass-through branch). -/
def taggedApiLikeInput : JsValue :=
  .vObj [("type", .vStr "raw_text"), ("endpoint", .vStr "/a"), ("method", .vStr "GET")]

/-- A structured input with both `endpoint` and `method` fields present,
the `endpoint` holding the empty (falsy) string. -/
def falsyEndpointInput : JsValue := .vObj [("endpoint", .vStr ""), ("method", .vStr "GET")]

/-- A structured input whose `user` field holds the empty (falsy) string. -/
def falsyUserInput : JsValue := .vObj [("user", .vStr "")]

/-- The api scenario input of the spec. -/
def apiInputC6 : JsValue :=
  .vObj [("endpoint", .vStr "/login"), ("method", .vStr "POST"),
         ("request", .vObj [("username", .vStr "string"), ("password", .vStr "string")])]

/-- A test-case set whose single positive case misses every required
field but `title`. -/
def badSet : TestCaseSet :=
  { positive := [[("title", .vStr "t")]], negative := [], boundary := [], edge := [] }

/-- The four below-floor section errors, in section order. -/
def lessThanThreeErrors : List String :=
  ["Section positive has less than 3 test cases",
   "Section negative has less than 3 test cases",
   "Section boundary has less than 3 test cases",
   "Section edge has less than 3 test cases"]

/-- Every case of every section carries the eight required fields and a
non-empty steps array. -/
def casesWellFormed (tc : TestCaseSet) : Bool :=
  (sectionsOf tc).all fun sec =>
    sec.2.all fun c => requiredFields.all (hasKey c) && !stepsBad c

/-- The per-value transform of `getInvalidTestData`, value component. -/
def invTransform : JsValue → Option JsValue
  | .vStr _ => some (.vNum 123)
  | .vNum _ => some (.vStr "not_a_number")
  | .vBool _ => some (.vStr "not_a_boolean")
  | _ => none

/-- The per-value transform of `getBoundaryTestData`, value component. -/
def bndTransform (ty : String) : JsValue → Option JsValue
  | .vStr _ =>
    some (.vStr (if ty = "max" then repeatChar 'a' QA_ASSUMPTIONS.string.maxLength else "a"))
  | .vNum _ =>
    some (.vNum (if ty = "max" then QA_ASSUMPTIONS.number.max else QA_ASSUMPTIONS.number.min))
  | _ => none

/-! ## Helper lemmas -/

/-- The classification step only ever emits the three known variant tags. -/
theorem classifyParsed_type (p : JsValue) :
    getField (classifyParsed p) "type" = some (.vStr "api") ∨
    getField (classifyParsed p) "type" = some (.vStr "user_story") ∨
    getField (classifyParsed p) "type" = some (.vStr "raw_text") := by
  unfold classifyParsed
  split
  · left; rfl
  · split
    · right; left; rfl
    · right; right; rfl

/-- The post-pass-through part of normalization only ever emits the three
known variant tags. -/
theorem normalizeParsed_type (i p : JsValue) :
    getField (normalizeParsed i p) "type" = some (.vStr "api") ∨
    getField (normalizeParsed i p) "type" = some (.vStr "user_story") ∨
    getField (normalizeParsed i p) "type" = some (.vStr "raw_text") := by
  cases p with
  | vNull => right; right; rfl
  | vStr s => exact classifyParsed_type _
  | vNum n => exact classifyParsed_type _
  | vBool b => exact classifyParsed_type _
  | vObj fs => exact classifyParsed_type _
  | vArr l => exact classifyParsed_type _

/-- Inputs that are not passed through normalize to one of the three
known variant tags. -/
theorem normalizeInput_type (x : JsValue) (h : passThru x = false) :
    getField (normalizeInput x) "type" = some (.vStr "api") ∨
    getField (normalizeInput x) "type" = some (.vStr "user_story") ∨
    getField (normalizeInput x) "type" = some (.vStr "raw_text") := by
  cases x with
  | vNull => right; right; rfl
  | vStr s =>
    have : normalizeInput (.vStr s) =
        normalizeParsed (.vStr s) ((jsonParse s).getD (.vObj [("raw", .vStr s)])) := by
      simp [normalizeInput, h]
    rw [this]; exact normalizeParsed_type _ _
  | vNum n =>
    have : normalizeInput (.vNum n) = normalizeParsed (.vNum n) (.vNum n) := by
      simp [normalizeInput, h]
    rw [this]; exact normalizeParsed_type _ _
  | vBool b =>
    have : normalizeInput (.vBool b) = normalizeParsed (.vBool b) (.vBool b) := by
      simp [normalizeInput, h]
    rw [this]; exact normalizeParsed_type _ _
  | vObj fs =>
    have : normalizeInput (.vObj fs) = normalizeParsed (.vObj fs) (.vObj fs) := by
      simp [normalizeInput, h]
    rw [this]; exact normalizeParsed_type _ _
  | vArr l =>
    have : normalizeInput (.vArr l) = normalizeParsed (.vArr l) (.vArr l) := by
      simp [normalizeInput, h]
    rw [this]; exact normalizeParsed_type _ _

/-- The length of a repeated character is the repetition count. -/
theorem repeatChar_length (c : Char) (n : Nat) : (repeatChar c n).length = n := by
  simp [repeatChar, String.length]

/-- Minting a base id either succeeds or raises a `TypeError`, never the
unsupported-input-type error. -/
theorem generateBaseId_not_unsupported (n : JsValue) :
    isUnsupportedErr (generateBaseId n) = false := by
  unfold generateBaseId
  split
  · split <;> rfl
  · split <;> rfl

/-! ## Claim C1 -/

/-- C1, counterexample: the plain string
`As a user I want to login so that I can access dashboard` is NOT valid
JSON, so normalization wraps it as a raw object and classifies it as
`raw_text`, not `user_story` as the claim states; the base id is minted
from the serialized wrapper and is `TC_RAW_USER_WANT`, not
`TC_USER_WANT_LOGIN`. -/
theorem c1_variant_and_id_refuted :
    getField (normalizeInput storyInputC1) "type" = some (.vStr "raw_text") ∧
    getField (normalizeInput storyInputC1) "type" ≠ some (.vStr "user_story") ∧
    generateBaseId (normalizeInput storyInputC1) = .ok "TC_RAW_USER_WANT" ∧
    generateBaseId (normalizeInput storyInputC1) ≠ .ok "TC_USER_WANT_LOGIN" := by
  refine ⟨?_, ?_, ?_, ?_⟩ <;> decide

/-- C1, amended: the pipeline classifies the plain story string as
`raw_text` with content equal to the JSON serialization of the
`\x7b raw: input \x7d` wrapper; the base id derives from the first three
word tokens of that serialization (`TC_RAW_USER_WANT`); the main-action
extractor is never invoked on this path (the raw-text feature extractor
yields the default `feature`); 4 total cases with one per section; and
validation fails. -/
theorem c1_amended_raw_text_pipeline :
    normalizeInput storyInputC1 =
      rawTextObj (.vStr "\x7b\"raw\":\"As a user I want to login so that I can access dashboard\"\x7d") ∧
    generateBaseId (normalizeInput storyInputC1) = .ok "TC_RAW_USER_WANT" ∧
    (pipelineCases storyInputC1).map totalCases = some 4 ∧
    (pipelineCases storyInputC1).map
        (fun tc => (tc.positive.length, tc.negative.length, tc.boundary.length, tc.edge.length)) =
      some (1, 1, 1, 1) ∧
    (pipelineCases storyInputC1).map (fun tc => tc.positive.map (fun c => jsGet c "title")) =
      some [some (.vStr "Basic functionality - feature")] ∧
    (pipelineCases storyInputC1).map (fun tc => (validateOutput tc).isValid) = some false := by
  refine ⟨?_, ?_, ?_, ?_, ?_, ?_⟩ <;> decide

/-! ## Claim C2 -/

/-- C2, counterexample: normalization passes any object with a truthy
`type` field through unchanged, so an unrecognized tag reaches the
synthesizer's defensive branch and the unsupported-input-type error IS
raised. -/
theorem c2_unsupported_error_reachable :
    generateTestCases (normalizeInput bananaInput) =
      .error (.unsupportedInputType "Unsupported input type: banana") := by
  decide

/-- C2, amended: for every input that is not an object carrying a truthy
`type` field (all strings, numbers, booleans, arrays, `null`, and objects
whose `type` field is absent or falsy), normalization yields one of the
three known variant tags and the synthesizer never raises the
unsupported-input-type error on its output. -/
theorem c2_amended_no_unsupported_error (x : JsValue) (h : passThru x = false) :
    isUnsupportedErr (generateTestCases (normalizeInput x)) = false := by
  have hb := generateBaseId_not_unsupported (normalizeInput x)
  cases hgb : generateBaseId (normalizeInput x) with
  | error e =>
    rw [hgb] at hb
    simp only [generateTestCases, hgb]
    cases e with
    | typeError m => rfl
    | unsupportedInputType m => simp [isUnsupportedErr] at hb
  | ok b =>
    rcases normalizeInput_type x h with ht | ht | ht <;>
      simp only [generateTestCases, hgb, ht]
    · rfl
    · split <;> rfl
    · split <;> rfl

/-- C2, witness: the amended theorem applied to a plain string input. -/
theorem c2_amended_no_unsupported_error_witness :
    isUnsupportedErr (generateTestCases (normalizeInput (.vStr "hello"))) = false :=
  c2_amended_no_unsupported_error (.vStr "hello") (by decide)

/-! ## Claim C4 -/

/-- C4: the claim matches the evident intent of the source (the literal
`TC_GENERIC` fallback), but that fallback is dead code: the template
result always begins with the non-empty prefix `TC_`, so for a content
with no word token of length at least 3 the minter returns the bare
`TC_`, never `TC_GENERIC`. -/
theorem c4_generic_fallback_dead :
    wordTokens "" = [] ∧
    textBaseId "" = "TC_" ∧
    textBaseId "" ≠ "TC_GENERIC" ∧
    generateBaseId (rawTextObj (.vStr "")) = .ok "TC_" := by
  refine ⟨?_, ?_, ?_, ?_⟩ <;> decide

/-! ## Claim C6 -/

/-- C6: every api-variant generation produces exactly 1 positive, 2
negative, 2 boundary and 2 edge cases; on the concrete login spec the
base id is `TC__LOGIN` (leading underscore from the slash) and the second
negative case's test data is the string-to-number inversion of the
request. -/
theorem c6_api_counts_and_login_scenario :
    (∀ (eV mV : Option JsValue) (rV : JsValue) (b : String),
      (generateApiCases eV mV rV b).positive.length = 1 ∧
      (generateApiCases eV mV rV b).negative.length = 2 ∧
      (generateApiCases eV mV rV b).boundary.length = 2 ∧
      (generateApiCases eV mV rV b).edge.length = 2) ∧
    getField (normalizeInput apiInputC6) "type" = some (.vStr "api") ∧
    generateBaseId (normalizeInput apiInputC6) = .ok "TC__LOGIN" ∧
    (pipelineCases apiInputC6).map totalCases = some 7 ∧
    (pipelineCases apiInputC6).map (fun tc => tc.negative.map (fun c => jsGet c "test_data")) =
      some [some (.vObj []),
            some (.vObj [("username", .vNum 123), ("password", .vNum 123)])] := by
  refine ⟨fun eV mV rV b => ⟨rfl, rfl, rfl, rfl⟩, ?_, ?_, ?_, ?_⟩ <;> decide

/-! ## Claim C3 -/

/-- C3, counterexample: three structured inputs violating the claimed
partition.  An object with a truthy `type` tag is passed through
unchanged even though it has both `endpoint` and `method`; an `endpoint`
field holding the empty string is present but falsy, so the input is not
classified `api`; a `user` field holding the empty string is present but
falsy, so the input is not classified `user_story`. -/
theorem c3_partition_refuted :
    getField (normalizeInput taggedApiLikeInput) "type" = some (.vStr "raw_text") ∧
    getField (normalizeInput falsyEndpointInput) "type" = some (.vStr "raw_text") ∧
    getField (normalizeInput falsyUserInput) "type" = some (.vStr "raw_text") := by
  refine ⟨?_, ?_, ?_⟩ <;> decide

/-- C3, amended: for structured inputs without a truthy `type` field the
classification is the claimed partition, with field presence strengthened
to field truthiness: truthy `endpoint` and `method` give `api`; otherwise
a truthy value at any of `user`/`story`/`as`/`iWant`/`soThat` gives
`user_story`; all remaining such objects give `raw_text`. -/
theorem c3_amended_partition (fs : List (String × JsValue))
    (h : truthyField (.vObj fs) "type" = false) :
    ((truthyField (.vObj fs) "endpoint" && truthyField (.vObj fs) "method") = true →
       getField (normalizeInput (.vObj fs)) "type" = some (.vStr "api")) ∧
    ((truthyField (.vObj fs) "endpoint" && truthyField (.vObj fs) "method") = false →
      (truthyField (.vObj fs) "user" || truthyField (.vObj fs) "story" ||
       truthyField (.vObj fs) "as" || truthyField (.vObj fs) "iWant" ||
       truthyField (.vObj fs) "soThat") = true →
       getField (normalizeInput (.vObj fs)) "type" = some (.vStr "user_story")) ∧
    ((truthyField (.vObj fs) "endpoint" && truthyField (.vObj fs) "method") = false →
      (truthyField (.vObj fs) "user" || truthyField (.vObj fs) "story" ||
       truthyField (.vObj fs) "as" || truthyField (.vObj fs) "iWant" ||
       truthyField (.vObj fs) "soThat") = false →
       getField (normalizeInput (.vObj fs)) "type" = some (.vStr "raw_text")) := by
  have hni : normalizeInput (.vObj fs) = classifyParsed (.vObj fs) := by
    simp [normalizeInput, passThru, h, normalizeParsed]
  refine ⟨fun h1 => ?_, fun h1 h2 => ?_, fun h1 h2 => ?_⟩ <;> rw [hni] <;> unfold classifyParsed
  · rw [if_pos h1]
    rfl
  · rw [if_neg (by simp [h1]), if_pos h2]
    rfl
  · rw [if_neg (by simp [h1]), if_neg (by simp [h2])]
    rfl

/-- C3, witness: a plain endpoint-and-method object classifies as `api`. -/
theorem c3_amended_partition_witness :
    getField (normalizeInput (.vObj [("endpoint", .vStr "/a"), ("method", .vStr "GET")])) "type"
      = some (.vStr "api") :=
  (c3_amended_partition [("endpoint", .vStr "/a"), ("method", .vStr "GET")] (by decide)).1
    (by decide)

/-! ## Claim C5 -/

/-- C5, counterexample: a field holding a value of a type other than
string, number or boolean is not carried over into the inverted mapping
at all — the returned mapping is empty, the field is not `left
untouched` in it. -/
theorem c5_other_typed_fields_dropped :
    getInvalidTestData (.vObj [("a", .vNull)]) = [] ∧
    hasKey (getInvalidTestData (.vObj [("a", .vNull)])) "a" = false ∧
    jsGet (getInvalidTestData (.vObj [("a", .vNull)])) "a" ≠ some .vNull :=
  ⟨rfl, rfl, by decide⟩

/-- A value-determined field transform keeps keys, so a key absent from
the source object is absent from the transformed object. -/
theorem jsGet_transform_keyless (t : JsValue → Option JsValue) (fs : JsObj) (k : String)
    (h : k ∉ fs.map Prod.fst) :
    jsGet (fs.filterMap fun kv => Option.map (fun w => (kv.1, w)) (t kv.2)) k = none := by
  induction fs with
  | nil => rfl
  | cons hd tl ih =>
    simp only [List.map_cons, List.mem_cons, not_or] at h
    obtain ⟨hne, hnotin⟩ := h
    rw [List.filterMap_cons]
    cases htt : t hd.2 with
    | none =>
      simp only [Option.map_none']
      exact ih hnotin
    | some w =>
      simp only [Option.map_some']
      have hbeq : (hd.1 == k) = false := by
        simp only [beq_eq_false_iff_ne, ne_eq]
        exact fun he => hne he.symm
      simp only [jsGet, List.find?_cons, hbeq]
      exact ih hnotin

/-- Lookup through a value-determined field transform of an object with
unique keys: the transformed object maps each source key to the transform
of its source value (`none` meaning the key is dropped). -/
theorem jsGet_transformFields (t : JsValue → Option JsValue) (fs : JsObj)
    (hnd : (fs.map Prod.fst).Nodup) (k : String) (v : JsValue) (hmem : (k, v) ∈ fs) :
    jsGet (fs.filterMap fun kv => Option.map (fun w => (kv.1, w)) (t kv.2)) k = t v := by
  induction fs with
  | nil => cases hmem
  | cons hd tl ih =>
    rw [List.map_cons, List.nodup_cons] at hnd
    obtain ⟨hk, hnd'⟩ := hnd
    rw [List.filterMap_cons]
    rcases List.mem_cons.mp hmem with heq | hmem'
    · cases htt : t hd.2 with
      | none =>
        simp only [Option.map_none']
        have hkk : k = hd.1 := by rw [← heq]
        have hvv : v = hd.2 := by rw [← heq]
        rw [hvv, htt]
        exact jsGet_transform_keyless t tl k (hkk ▸ hk)
      | some w =>
        simp only [Option.map_some']
        have hkk : k = hd.1 := by rw [← heq]
        have hvv : v = hd.2 := by rw [← heq]
        have hbeq : (hd.1 == k) = true := by
          simp only [beq_iff_eq]
          exact hkk.symm
        simp only [jsGet, List.find?_cons, hbeq, Option.map_some']
        rw [hvv, htt]
    · have hkne : (hd.1 == k) = false := by
        simp only [beq_eq_false_iff_ne, ne_eq]
        intro he
        exact hk (he ▸ List.mem_map_of_mem Prod.fst hmem')
      cases htt : t hd.2 with
      | none =>
        simp only [Option.map_none']
        exact ih hnd' hmem'
      | some w =>
        simp only [Option.map_some']
        simp only [jsGet, List.find?_cons, hkne]
        exact ih hnd' hmem'

/-- A missing lookup means a missing key. -/
theorem hasKey_eq_false_of_jsGet_none (o : JsObj) (k : String) (h : jsGet o k = none) :
    hasKey o k = false := by
  simp only [jsGet, Option.map_eq_none', List.find?_eq_none] at h
  simp only [hasKey, List.any_eq_false]
  exact h

/-- The definition of `getInvalidTestData` on an object, rephrased
through its per-value transform. -/
theorem getInvalidTestData_eq (fs : JsObj) :
    getInvalidTestData (.vObj fs) =
      fs.filterMap fun kv => Option.map (fun w => (kv.1, w)) (invTransform kv.2) := by
  unfold getInvalidTestData jsEntries
  apply List.filterMap_congr
  intro kv _
  obtain ⟨k, v⟩ := kv
  cases v <;> rfl

/-- The definition of `getBoundaryTestData` on an object, rephrased
through its per-value transform. -/
theorem getBoundaryTestData_eq (fs : JsObj) (ty : String) :
    getBoundaryTestData (.vObj fs) ty =
      fs.filterMap fun kv => Option.map (fun w => (kv.1, w)) (bndTransform ty kv.2) := by
  unfold getBoundaryTestData jsEntries
  apply List.filterMap_congr
  intro kv _
  obtain ⟨k, v⟩ := kv
  cases v <;> rfl

/-- C5, amended: on a request object (unique keys), the inverted mapping
sends every string field to the number `123`, every number field to the
string `not_a_number`, every boolean field to the string
`not_a_boolean` — each a value of a different runtime type — and omits
every field of any other type from the returned mapping (the original
request is never modified). -/
theorem c5_amended_type_inversion (fs : JsObj) (hnd : (fs.map Prod.fst).Nodup)
    (k : String) (v : JsValue) (hmem : (k, v) ∈ fs) :
    match v with
    | .vStr _ => jsGet (getInvalidTestData (.vObj fs)) k = some (.vNum 123)
    | .vNum _ => jsGet (getInvalidTestData (.vObj fs)) k = some (.vStr "not_a_number")
    | .vBool _ => jsGet (getInvalidTestData (.vObj fs)) k = some (.vStr "not_a_boolean")
    | _ => hasKey (getInvalidTestData (.vObj fs)) k = false := by
  have h := jsGet_transformFields invTransform fs hnd k v hmem
  rw [← getInvalidTestData_eq] at h
  cases v with
  | vStr s => exact h
  | vNum n => exact h
  | vBool b => exact h
  | vNull => exact hasKey_eq_false_of_jsGet_none _ _ h
  | vObj o => exact hasKey_eq_false_of_jsGet_none _ _ h
  | vArr l => exact hasKey_eq_false_of_jsGet_none _ _ h

/-- C5, witness: the amended inversion on a concrete request. -/
theorem c5_amended_type_inversion_witness :
    jsGet (getInvalidTestData (.vObj [("u", .vStr "x"), ("z", .vNull)])) "u"
      = some (.vNum 123) :=
  c5_amended_type_inversion [("u", .vStr "x"), ("z", .vNull)] (by decide) "u" (.vStr "x")
    (by decide)

/-! ## Claim C7 -/

/-- C7: for every content string, the `user_story` and `raw_text`
synthesizers produce exactly one case per section, and validating either
output reports the below-floor error for every one of the four sections
(and nothing else). -/
theorem c7_narrative_counts_and_floor_errors (c b : String) :
    (generateUserStoryCases c b).positive.length = 1 ∧
    (generateUserStoryCases c b).negative.length = 1 ∧
    (generateUserStoryCases c b).boundary.length = 1 ∧
    (generateUserStoryCases c b).edge.length = 1 ∧
    (generateRawTextCases c b).positive.length = 1 ∧
    (generateRawTextCases c b).negative.length = 1 ∧
    (generateRawTextCases c b).boundary.length = 1 ∧
    (generateRawTextCases c b).edge.length = 1 ∧
    (validateOutput (generateUserStoryCases c b)).errors = lessThanThreeErrors ∧
    (validateOutput (generateRawTextCases c b)).errors = lessThanThreeErrors := by
  refine ⟨rfl, rfl, rfl, rfl, rfl, rfl, rfl, rfl, ?_, ?_⟩ <;> rfl

/-! ## Claim C8 -/

/-- C8: a test-case set whose case at index `i` of a section misses a
required field `f` validates to `isValid = false` with an error naming
the section, the 1-based index and the field; and in general `isValid` is
true exactly when the error list is empty. -/
theorem c8_validator_missing_field (tc : TestCaseSet) (name : String) (cs : List JsObj)
    (i : Nat) (f : String) (hsec : (name, cs) ∈ sectionsOf tc) (hi : i < cs.length)
    (hf : f ∈ requiredFields) (hmiss : hasKey (cs.get ⟨i, hi⟩) f = false) :
    (validateOutput tc).isValid = false ∧
    ("Section " ++ name ++ ", case " ++ toString (i + 1) ++ ": Missing field " ++ f)
      ∈ (validateOutput tc).errors ∧
    ∀ tc' : TestCaseSet,
      ((validateOutput tc').isValid = true ↔ (validateOutput tc').errors = []) := by
  have herr : ("Section " ++ name ++ ", case " ++ toString (i + 1) ++ ": Missing field " ++ f)
      ∈ fieldErrors tc := by
    unfold fieldErrors
    rw [List.mem_flatMap]
    refine ⟨(name, cs), hsec, ?_⟩
    rw [List.mem_flatMap]
    refine ⟨(i, cs.get ⟨i, hi⟩), ?_, ?_⟩
    · rw [List.mk_mem_enum_iff_getElem?, List.getElem?_eq_getElem hi]
      rfl
    · unfold caseErrors
      apply List.mem_append_left
      rw [List.mem_filterMap]
      refine ⟨f, hf, ?_⟩
      rw [hmiss]
      rfl
  have hmem : ("Section " ++ name ++ ", case " ++ toString (i + 1) ++ ": Missing field " ++ f)
      ∈ (validateOutput tc).errors := List.mem_append_right _ herr
  refine ⟨?_, hmem, fun tc' => List.isEmpty_iff⟩
  exact List.isEmpty_eq_false.mpr (List.ne_nil_of_mem hmem)

/-- C8, witness: a concrete set whose single positive case misses `id`. -/
theorem c8_validator_missing_field_witness :
    (validateOutput badSet).isValid = false ∧
    ("Section positive, case 1: Missing field id") ∈ (validateOutput badSet).errors ∧
    ((validateOutput badSet).isValid = true ↔ (validateOutput badSet).errors = []) := by
  have h := c8_validator_missing_field badSet "positive" [[("title", .vStr "t")]] 0 "id"
    (by decide) (by decide) (by decide) (by decide)
  exact ⟨h.1, h.2.1, h.2.2 badSet⟩

/-! ## Claim C9 -/

/-- C9: on a request object (unique keys), the boundary data maps every
string field to a string of length exactly 255 in the `max` flavour and
to the single character `a` in the `min` flavour, and every number field
to `999999` in the `max` flavour and `0` in the `min` flavour. -/
theorem c9_boundary_substitution (fs : JsObj) (hnd : (fs.map Prod.fst).Nodup)
    (k : String) (v : JsValue) (hmem : (k, v) ∈ fs) :
    match v with
    | .vStr _ =>
        jsGet (getBoundaryTestData (.vObj fs) "max") k = some (.vStr (repeatChar 'a' 255)) ∧
        (repeatChar 'a' 255).length = 255 ∧
        jsGet (getBoundaryTestData (.vObj fs) "min") k = some (.vStr "a")
    | .vNum _ =>
        jsGet (getBoundaryTestData (.vObj fs) "max") k = some (.vNum 999999) ∧
        jsGet (getBoundaryTestData (.vObj fs) "min") k = some (.vNum 0)
    | _ => True := by
  have hmax := jsGet_transformFields (bndTransform "max") fs hnd k v hmem
  have hmin := jsGet_transformFields (bndTransform "min") fs hnd k v hmem
  rw [← getBoundaryTestData_eq] at hmax hmin
  cases v with
  | vStr s => exact ⟨hmax, repeatChar_length 'a' 255, hmin⟩
  | vNum n => exact ⟨hmax, hmin⟩
  | vBool b => trivial
  | vNull => trivial
  | vObj o => trivial
  | vArr l => trivial

/-- C9, witness: the boundary substitution on a concrete request. -/
theorem c9_boundary_substitution_witness :
    jsGet (getBoundaryTestData (.vObj [("u", .vStr "x"), ("n", .vNum 7)]) "max") "u"
        = some (.vStr (repeatChar 'a' 255)) ∧
    (repeatChar 'a' 255).length = 255 ∧
    jsGet (getBoundaryTestData (.vObj [("u", .vStr "x"), ("n", .vNum 7)]) "min") "u"
        = some (.vStr "a") :=
  c9_boundary_substitution [("u", .vStr "x"), ("n", .vNum 7)] (by decide) "u" (.vStr "x")
    (by decide)

/-! ## Claim C10 -/

/-- C10: for every normalized input of a known variant (endpoint and
method strings in the api case), every synthesized case carries all eight
required fields and a non-empty steps array, and the validator's error
list on the synthesized output is exactly the four below-floor section
errors — never a missing-field or empty-steps error. -/
theorem c10_synth_output_only_floor_errors :
    (∀ (e m : String) (r : JsValue) (b : String),
       casesWellFormed (generateApiCases (some (.vStr e)) (some (.vStr m)) r b) = true ∧
       (validateOutput (generateApiCases (some (.vStr e)) (some (.vStr m)) r b)).errors =
         lessThanThreeErrors) ∧
    (∀ c b : String,
       casesWellFormed (generateUserStoryCases c b) = true ∧
       (validateOutput (generateUserStoryCases c b)).errors = lessThanThreeErrors) ∧
    (∀ c b : String,
       casesWellFormed (generateRawTextCases c b) = true ∧
       (validateOutput (generateRawTextCases c b)).errors = lessThanThreeErrors) :=
  ⟨fun _ _ _ _ => ⟨rfl, rfl⟩, fun _ _ => ⟨rfl, rfl⟩, fun _ _ => ⟨rfl, rfl⟩⟩

end McpTcg
